import Mathlib

/-!
Verification of the FastAPI to-do service (`fastapi-app/main.py`).

The service keeps an ordered collection of to-do items in a single JSON file
(`todo.json`) and exposes CRUD handlers over it.  We embed the data model and
the handlers shallowly: the backing file is `Option (List TodoItem)` (with
`none` meaning the file does not exist), each handler is a pure function from
the file state (and the request data) to the new file state plus the HTTP
outcome, and the telemetry sink is a parameter describing the outcome of the
`write_api.write` call so that the try/except swallowing can be stated.
-/

namespace FastApiTodos

/-- The `priority` field of `TodoItem`: `Literal["high", "none"]`. -/
inductive Priority where
  | high
  | none
deriving DecidableEq, Repr

/-- The pydantic model `TodoItem` from `main.py`: `id: int`, `title: str`,
`description: str`, `completed: bool`, `priority: Literal["high","none"]`. -/
structure TodoItem where
  id : Int
  title : String
  description : String
  completed : Bool
  priority : Priority
deriving DecidableEq, Repr

/-- The state of the backing file `todo.json`: `none` when the file does not
exist, `some todos` when it holds the serialized collection. -/
abbrev Store := Option (List TodoItem)

/-- `load_todos` from `main.py`: returns the parsed file content when the file
exists and the empty list otherwise. -/
def load_todos (store : Store) : List TodoItem :=
  match store with
  | some todos => todos
  | Option.none => []

/-- `save_todos` from `main.py`: overwrites the backing file with the full
collection, so afterwards the file exists and holds exactly `todos`. -/
def save_todos (todos : List TodoItem) : Store :=
  some todos

/-- `get_todos` from `main.py` (`GET /todos`).  The parameter `user` is the
optional query parameter; the Python guard `if user:` is truthy only for a
present, non-empty string, in which case the handler returns the items whose
`description` equals `user`. -/
def get_todos (store : Store) (user : Option String) : List TodoItem :=
  let todos := load_todos store
  match user with
  | some u => if u = "" then todos else todos.filter (fun todo => todo.description == u)
  | Option.none => todos

/-- Possible outcomes of a `write_api.write` call to the InfluxDB sink. -/
inductive SinkOutcome where
  | success
  | connectionError
  | authError
  | timeout
  | otherError
deriving DecidableEq, Repr

/-- The sink write as a fallible call: the error value is the diagnostic
message carried by the raised exception. -/
def sinkWrite : SinkOutcome → Except String Unit
  | SinkOutcome.success => Except.ok ()
  | SinkOutcome.connectionError => Except.error "connection refused"
  | SinkOutcome.authError => Except.error "unauthorized"
  | SinkOutcome.timeout => Except.error "timed out"
  | SinkOutcome.otherError => Except.error "write failed"

/-- The `try`/`except` block of `add_influxdb_middleware`: a failed sink write
is caught and only printed to the local diagnostic channel.  The result is the
list of locally printed diagnostic lines. -/
def swallowSinkFailure (outcome : SinkOutcome) : List String :=
  match sinkWrite outcome with
  | Except.ok _ => []
  | Except.error e => ["InfluxDB write failed: " ++ e]

/-- An HTTP response as the middleware sees it. -/
structure Response where
  status : Nat
  headers : List (String × String)
  body : String
deriving DecidableEq, Repr

/-- `add_influxdb_middleware` from `main.py`: awaits the downstream response,
then writes a timing point to the sink inside `try`/`except` and returns the
response unchanged.  The second component is the local diagnostic output. -/
def add_influxdb_middleware (response : Response) (outcome : SinkOutcome) :
    Response × List String :=
  (response, swallowSinkFailure outcome)

/-- Error outcomes surfaced to HTTP clients by the handlers. -/
inductive HTTPError where
  | notFound404
  | validationError422
deriving DecidableEq, Repr

/-- `create_todo` from `main.py` (`POST /todos` after body validation): loads
the collection, appends `todo.model_dump()`, saves, emits a business-event
point inside `try`/`except: pass`, and returns the created item.  The middle
component is the local diagnostic output of the handler (none: the `except`
clause is a bare `pass`). -/
def create_todo (store : Store) (todo : TodoItem) (outcome : SinkOutcome) :
    Store × List String × TodoItem :=
  let todos := load_todos store
  let todos2 := todos ++ [todo]
  let store2 := save_todos todos2
  let diag : List String :=
    match sinkWrite outcome with
    | Except.ok _ => []
    | Except.error _ => []
  (store2, diag, todo)

/-- A request body for `POST /todos` before validation: each field of the
`TodoItem` schema is either present or absent. -/
structure RawBody where
  id : Option Int
  title : Option String
  description : Option String
  completed : Option Bool
  priority : Option String
deriving DecidableEq, Repr

/-- Modelled from the spec: the FastAPI/pydantic validation of a request body
against the `TodoItem` schema declared in `main.py` (the validation machinery
itself is framework code, not in the repository).  All of `id`, `title`,
`description`, `completed` are required; `priority` defaults to `"none"` and
must be one of `"high"`/`"none"`; a mismatch is a 422 `ValidationError`. -/
def validateTodoItem (body : RawBody) : Except HTTPError TodoItem :=
  match body.id, body.title, body.description, body.completed with
  | some i, some t, some d, some c =>
    match body.priority with
    | Option.none => Except.ok ⟨i, t, d, c, Priority.none⟩
    | some p =>
      if p = "high" then Except.ok ⟨i, t, d, c, Priority.high⟩
      else if p = "none" then Except.ok ⟨i, t, d, c, Priority.none⟩
      else Except.error HTTPError.validationError422
  | _, _, _, _ => Except.error HTTPError.validationError422

/-- `POST /todos` at the HTTP boundary: the body is validated against the
`TodoItem` schema before the handler runs; on failure the request is rejected
with 422 and `create_todo` (and hence any store mutation) never runs. -/
def post_todos (store : Store) (body : RawBody) (outcome : SinkOutcome) :
    Store × Except HTTPError TodoItem :=
  match validateTodoItem body with
  | Except.error e => (store, Except.error e)
  | Except.ok todo =>
    let r := create_todo store todo outcome
    (r.1, Except.ok r.2.2)

/-- The `for todo in todos` loop of `update_todo`: replace the fields of the
first item whose `id` matches with the fields of `updated_todo` and stop;
`none` when no item matches (the loop falls through). -/
def updateLoop (todos : List TodoItem) (todo_id : Int) (updated_todo : TodoItem) :
    Option (List TodoItem) :=
  match todos with
  | [] => Option.none
  | todo :: rest =>
    if todo.id = todo_id then some (updated_todo :: rest)
    else (updateLoop rest todo_id updated_todo).map (fun l => todo :: l)

/-- `update_todo` from `main.py` (`PUT /todos/{todo_id}`): scans for the first
item with a matching `id`; on a hit it overwrites that item with the body,
saves, and returns the body; otherwise it raises `HTTPException(404)` and the
file is left untouched. -/
def update_todo (store : Store) (todo_id : Int) (updated_todo : TodoItem) :
    Store × Except HTTPError TodoItem :=
  let todos := load_todos store
  match updateLoop todos todo_id updated_todo with
  | some todos2 => (save_todos todos2, Except.ok updated_todo)
  | Option.none => (store, Except.error HTTPError.notFound404)

/-- `delete_todo` from `main.py` (`DELETE /todos/{todo_id}`): keeps exactly
the items whose `id` differs from the path parameter, saves unconditionally,
and returns the fixed success message. -/
def delete_todo (store : Store) (todo_id : Int) : Store × String :=
  let todos := load_todos store
  let todos2 := todos.filter (fun todo => todo.id != todo_id)
  (save_todos todos2, "To-Do item deleted")

/-- JSON values, as produced by `json.dump` and read back by `json.load`. -/
inductive Json where
  | jnum (n : Int)
  | jstr (s : String)
  | jbool (b : Bool)
  | jarr (elems : List Json)
  | jobj (fields : List (String × Json))

/-- String form of a `priority` value, as stored in the JSON file. -/
def priorityStr : Priority → String
  | Priority.high => "high"
  | Priority.none => "none"

/-- Parse a stored `priority` string back into the enumeration. -/
def priorityOfStr (s : String) : Option Priority :=
  if s = "high" then some Priority.high
  else if s = "none" then some Priority.none
  else Option.none

/-- `todo.model_dump()`: the dictionary written to the JSON file for one
item, with the five schema keys in declaration order. -/
def model_dump (t : TodoItem) : Json :=
  Json.jobj
    [("id", Json.jnum t.id),
     ("title", Json.jstr t.title),
     ("description", Json.jstr t.description),
     ("completed", Json.jbool t.completed),
     ("priority", Json.jstr (priorityStr t.priority))]

/-- Lookup of a key in a JSON object, first binding wins. -/
def getField (fields : List (String × Json)) (key : String) : Option Json :=
  match fields with
  | [] => Option.none
  | (k, v) :: rest => if k = key then some v else getField rest key

/-- Read one stored dictionary back as a `TodoItem`. -/
def parseTodo (j : Json) : Option TodoItem :=
  match j with
  | Json.jobj fields =>
    match getField fields "id", getField fields "title", getField fields "description",
          getField fields "completed", getField fields "priority" with
    | some (Json.jnum i), some (Json.jstr t), some (Json.jstr d),
      some (Json.jbool c), some (Json.jstr p) =>
      (priorityOfStr p).map (fun pr => ⟨i, t, d, c, pr⟩)
    | _, _, _, _, _ => Option.none
  | _ => Option.none

/-- Read a stored array of dictionaries back as the collection. -/
def parseTodoList (elems : List Json) : Option (List TodoItem) :=
  match elems with
  | [] => some []
  | j :: rest =>
    match parseTodo j, parseTodoList rest with
    | some t, some ts => some (t :: ts)
    | _, _ => Option.none

/-- `json.dump(todos, file)` in `save_todos`: the file content is the array of
the items' dictionaries, in order. -/
def json_dump (todos : List TodoItem) : Json :=
  Json.jarr (todos.map model_dump)

/-- `json.load(file)` in `load_todos`, read back at the `TodoItem` layer. -/
def json_load (j : Json) : Option (List TodoItem) :=
  match j with
  | Json.jarr elems => parseTodoList elems
  | _ => Option.none

/-! Concrete items used by witnesses and counterexamples. -/

/-- A sample stored item whose `description` is `"alice"`. -/
def itemAlice : TodoItem := ⟨1, "Test", "alice", false, Priority.none⟩

/-- A sample stored item whose `description` is `"bob"`. -/
def itemBob : TodoItem := ⟨2, "Test2", "bob", true, Priority.high⟩

/-- A second stored item sharing `id = 1` with `itemAlice`. -/
def itemDup : TodoItem := ⟨1, "Second", "carol", false, Priority.high⟩

/-- A sample replacement body for updates. -/
def itemNew : TodoItem := ⟨1, "Updated", "Updated description", true, Priority.none⟩

/-! Helper lemmas about the update loop. -/

/-- When no stored item has the requested id, the scan falls through. -/
theorem updateLoop_eq_none (todos : List TodoItem) (todo_id : Int) (u : TodoItem)
    (h : ∀ todo ∈ todos, todo.id ≠ todo_id) :
    updateLoop todos todo_id u = Option.none := by
  induction todos with
  | nil => rfl
  | cons t rest ih =>
    have ht : t.id ≠ todo_id := h t (List.mem_cons_self t rest)
    simp [updateLoop, ht, ih (fun x hx => h x (List.mem_cons_of_mem t hx))]

/-- When some stored item has the requested id, the scan replaces the first
such item in place and leaves everything else untouched. -/
theorem updateLoop_eq_set (todos : List TodoItem) (todo_id : Int) (u : TodoItem)
    (h : ∃ todo ∈ todos, todo.id = todo_id) :
    updateLoop todos todo_id u =
      some (todos.set (todos.findIdx (fun todo => todo.id == todo_id)) u) := by
  induction todos with
  | nil => simp at h
  | cons t rest ih =>
    by_cases ht : t.id = todo_id
    · simp [updateLoop, ht, List.findIdx_cons]
    · have h2 : ∃ todo ∈ rest, todo.id = todo_id := by
        rcases h with ⟨x, hx, hid⟩
        rcases List.mem_cons.mp hx with rfl | hx2
        · exact absurd hid ht
        · exact ⟨x, hx2, hid⟩
      have hb : (t.id == todo_id) = false := by simp [ht]
      simp [updateLoop, ht, ih h2, List.findIdx_cons, hb, List.set_cons_succ]

/-- Reading back the dictionary written for one item recovers the item. -/
theorem parseTodo_model_dump (t : TodoItem) : parseTodo (model_dump t) = some t := by
  obtain ⟨i, ti, d, c, p⟩ := t
  cases p <;> rfl

/-! The claims. -/

/-- C1 (amended): for every stored collection and every NON-EMPTY query value
X, `GET /todos` with `user=X` returns exactly the items whose `description`
equals X (case-sensitive, insertion order preserved), and `GET /todos` with
`user` omitted returns the full collection unchanged.  (As stated over every
query value the claim fails at X = the empty string, see the
counterexample: Python `if user:` treats the empty string as absent.) -/
theorem getTodos_filters_nonempty_user (store : Store) (u : String) (h : u ≠ "") :
    get_todos store (some u) = (load_todos store).filter (fun todo => todo.description == u)
    ∧ get_todos store Option.none = load_todos store := by
  constructor
  · simp [get_todos, h]
  · rfl

/-- C1 witness: on a concrete two-item store, filtering by `"alice"` keeps
exactly the matching item and the unfiltered listing returns everything. -/
theorem getTodos_filters_nonempty_user_witness :
    get_todos (some [itemAlice, itemBob]) (some "alice") = [itemAlice]
    ∧ get_todos (some [itemAlice, itemBob]) Option.none = [itemAlice, itemBob] := by
  have h := getTodos_filters_nonempty_user (some [itemAlice, itemBob]) "alice" (by decide)
  exact ⟨h.1.trans (by decide), h.2.trans (by decide)⟩

/-- C1 counterexample: with `user` equal to the empty string the handler
returns the full collection, not the (empty) subset of items whose
`description` is the empty string, so the claim quantified over every query
value X is false at X = "". -/
theorem getTodos_filters_counterexample :
    ¬ (get_todos (some [itemAlice]) (some "") =
        (load_todos (some [itemAlice])).filter (fun todo => todo.description == "")) := by
  decide

/-- C2: when no stored item has the requested id, `PUT /todos/{id}` answers
404 NotFound and the persisted state is exactly the state before the call
(the save step never runs). -/
theorem putTodos_absent_id_404_store_unchanged (store : Store) (todo_id : Int)
    (updated_todo : TodoItem) (h : ∀ todo ∈ load_todos store, todo.id ≠ todo_id) :
    update_todo store todo_id updated_todo = (store, Except.error HTTPError.notFound404) := by
  simp [update_todo, updateLoop_eq_none _ _ _ h]

/-- C2 witness: updating id 5 in a store holding only id 1 fails with 404 and
leaves the file exactly as it was. -/
theorem putTodos_absent_id_404_store_unchanged_witness :
    update_todo (some [itemAlice]) 5 itemNew =
      (some [itemAlice], Except.error HTTPError.notFound404) :=
  putTodos_absent_id_404_store_unchanged (some [itemAlice]) 5 itemNew (by decide)

/-- C3: when some stored item has the requested id, `PUT /todos/{id}` replaces
the first such item (in scan order) wholesale with the body, persists the
resulting collection, and returns the body; every other position, including
later matches, and the order are untouched (`List.set` at the first matching
index). -/
theorem putTodos_present_id_replaces_first_match (store : Store) (todo_id : Int)
    (updated_todo : TodoItem) (h : ∃ todo ∈ load_todos store, todo.id = todo_id) :
    update_todo store todo_id updated_todo =
      (save_todos ((load_todos store).set
          ((load_todos store).findIdx (fun todo => todo.id == todo_id)) updated_todo),
       Except.ok updated_todo) := by
  simp [update_todo, updateLoop_eq_set _ _ _ h]

/-- C3 witness: with two stored items of id 1, updating id 1 rewrites only the
first of them, keeps the second duplicate and the unrelated item intact, and
returns the body. -/
theorem putTodos_present_id_replaces_first_match_witness :
    update_todo (some [itemAlice, itemDup, itemBob]) 1 itemNew =
      (some [itemNew, itemDup, itemBob], Except.ok itemNew) := by
  have h := putTodos_present_id_replaces_first_match
    (some [itemAlice, itemDup, itemBob]) 1 itemNew (by decide)
  exact h.trans (by rfl)

/-- C4: `DELETE /todos/{id}` removes every item with the given id (not only
the first), keeps the remaining items in order, persists unconditionally,
always returns the fixed success message, and is idempotent: deleting again
reproduces the same state and the same response. -/
theorem deleteTodos_removes_all_matches_idempotent (store : Store) (todo_id : Int) :
    (delete_todo store todo_id).1 =
        some ((load_todos store).filter (fun todo => todo.id != todo_id))
    ∧ (delete_todo store todo_id).2 = "To-Do item deleted"
    ∧ delete_todo (delete_todo store todo_id).1 todo_id = delete_todo store todo_id := by
  refine ⟨rfl, rfl, ?_⟩
  simp [delete_todo, save_todos, load_todos, List.filter_filter]

/-- C5: `POST /todos` appends the new item at the end of the loaded collection
(existing items, id collisions included, unchanged), persists, returns the
item verbatim, and a following `GET /todos` without `user` contains it;
regardless of the telemetry sink outcome. -/
theorem postTodos_appends_and_visible_in_get (store : Store) (todo : TodoItem)
    (outcome : SinkOutcome) :
    (create_todo store todo outcome).1 = some (load_todos store ++ [todo])
    ∧ (create_todo store todo outcome).2.2 = todo
    ∧ todo ∈ get_todos (create_todo store todo outcome).1 Option.none := by
  refine ⟨rfl, rfl, ?_⟩
  simp [create_todo, get_todos, load_todos, save_todos]

/-- C6: a `POST /todos` body that does not match the `TodoItem` schema —
missing any of the required fields, or carrying a `priority` literal outside
`{"high", "none"}` — is rejected with 422 before the handler runs, so the
persisted collection after the failed request is the collection before it. -/
theorem postTodos_invalid_body_422_no_mutation (store : Store) (body : RawBody)
    (outcome : SinkOutcome)
    (h : body.id = Option.none ∨ body.title = Option.none
        ∨ body.description = Option.none ∨ body.completed = Option.none
        ∨ ∃ p, body.priority = some p ∧ p ≠ "high" ∧ p ≠ "none") :
    post_todos store body outcome = (store, Except.error HTTPError.validationError422) := by
  obtain ⟨i, t, d, c, pr⟩ := body
  cases i <;> cases t <;> cases d <;> cases c <;> cases pr <;>
    simp_all [post_todos, validateTodoItem]

/-- C6 witness: the body `{"id": 1, "title": "Test"}` (missing `description`
and `completed`) is rejected with 422 and the store is untouched. -/
theorem postTodos_invalid_body_422_no_mutation_witness :
    post_todos (some [itemAlice]) ⟨some 1, some "Test", Option.none, Option.none, Option.none⟩
        SinkOutcome.success =
      (some [itemAlice], Except.error HTTPError.validationError422) :=
  postTodos_invalid_body_422_no_mutation (some [itemAlice])
    ⟨some 1, some "Test", Option.none, Option.none, Option.none⟩ SinkOutcome.success
    (Or.inr (Or.inr (Or.inl rfl)))

/-- C7: whatever the outcome of the telemetry sink write — success,
connection error, auth error, timeout, or any other failure — the middleware
passes the downstream response through unchanged and the create handler
produces the same persisted store and the same response body as in the
success case: sink failures are swallowed and never surface. -/
theorem telemetry_failure_never_surfaces (response : Response) (store : Store)
    (todo : TodoItem) (outcome : SinkOutcome) :
    (add_influxdb_middleware response outcome).1 = response
    ∧ (add_influxdb_middleware response outcome).1 =
        (add_influxdb_middleware response SinkOutcome.success).1
    ∧ (create_todo store todo outcome).1 = (create_todo store todo SinkOutcome.success).1
    ∧ (create_todo store todo outcome).2.2 =
        (create_todo store todo SinkOutcome.success).2.2 :=
  ⟨rfl, rfl, rfl, rfl⟩

/-- C8: when the backing file does not exist, `load_todos` returns the empty
collection instead of failing, and `GET /todos` on that never-written store
returns the empty array for any value of the `user` parameter. -/
theorem load_missing_file_empty (u : Option String) :
    load_todos Option.none = [] ∧ get_todos Option.none u = [] := by
  refine ⟨rfl, ?_⟩
  cases u with
  | none => rfl
  | some s => by_cases hs : s = "" <;> simp [get_todos, load_todos, hs]

/-- C9: the store round-trips: saving any collection and loading it back
yields the same items in the same order, both at the store interface and
through the JSON serialization actually written to the file. -/
theorem save_load_roundtrip (items : List TodoItem) :
    load_todos (save_todos items) = items
    ∧ json_load (json_dump items) = some items := by
  refine ⟨rfl, ?_⟩
  induction items with
  | nil => rfl
  | cons t ts ih =>
    have h1 : parseTodo (model_dump t) = some t := parseTodo_model_dump t
    have h2 : parseTodoList (ts.map model_dump) = some ts := ih
    simp [json_dump, json_load, parseTodoList, h1, h2]

/-- C10: `GET /todos` with `user` present but equal to the empty string
returns the full collection, not the subset with empty `description`: the
Python truthiness guard applies the filter only to non-empty values. -/
theorem getTodos_empty_user_full_collection (store : Store) :
    get_todos store (some "") = load_todos store := by
  simp [get_todos]

end FastApiTodos
